import Mathlib

/-!
Verification of the Query Intent Resolution & Schema-Aware Query Synthesis
Engine of the financial-ai-assistant repository, shallowly embedded from
`src/chatbot/nlp_processor.py`.

Text is modelled as `List Char` (`Str`); Python floats are modelled as `ℚ`
(all constants involved are exact decimals and only `+`, `min`, `max` and a
final clamp occur, so the interval claims are representation-independent).
`list(set(xs))` (whose iteration order CPython leaves unspecified) is
modelled as `List.dedup`.  Regular-expression searches of the source are
embedded as direct scanners over the character list, one per pattern.
The knowledge base is the built-in one (`base_terms`, `table_mappings`):
the external training artifacts are absent, which is the documented
fallback path of `_initialize_training_data`.
-/

namespace FinAssist

abbrev Str := List Char

def str (s : String) : Str := s.data

/-- Python `\d` (ASCII inputs). -/
def isDigitChar (c : Char) : Bool := c.isDigit

/-- Python `\w` (ASCII inputs): letters, digits, underscore. -/
def isWordChar (c : Char) : Bool := c.isAlphanum || c == '_'

/-- Python `\s` whitespace class (ASCII). -/
def isSpaceChar (c : Char) : Bool :=
  c == ' ' || c == '\t' || c == '\n' || c == '\r' || c == '\x0b' || c == '\x0c'

/-- Python `str.lower` (ASCII inputs). -/
def toLowerStr (s : Str) : Str := s.map Char.toLower

/-- Python `str.upper` (ASCII inputs). -/
def toUpperStr (s : Str) : Str := s.map Char.toUpper

/-- Python `str.strip()`. -/
def strip (s : Str) : Str :=
  ((s.dropWhile isSpaceChar).reverse.dropWhile isSpaceChar).reverse

/-- Python `pat in hay` (contiguous substring test). -/
def containsStr (hay pat : Str) : Bool :=
  match hay with
  | [] => pat.isEmpty
  | _ :: t => pat.isPrefixOf hay || containsStr t pat

/-- One step of `re.search(r'\b(w)\b', hay, re.IGNORECASE)` at the current
position: `prev` is the character before the position (`none` at the start).
Assumes (as in the source) that the word starts and ends with word
characters, so `\b` is "adjacent char absent or non-word". Matching is
case-insensitive by lowering the text character; the pattern words of the
source are lower case. -/
def boundedHereCI (pat : Str) (prev : Option Char) (rest : Str) : Bool :=
  pat.isPrefixOf (toLowerStr (rest.take pat.length))
    && (match prev with | none => true | some p => !isWordChar p)
    && (match rest.drop pat.length with | [] => true | d :: _ => !isWordChar d)

def occursBoundedAux (pat : Str) : Option Char → Str → Bool
  | _, [] => false
  | prev, c :: cs =>
    boundedHereCI pat prev (c :: cs) || occursBoundedAux pat (some c) cs

/-- `re.search(r'\b(pat)\b', hay, re.IGNORECASE) is not None` for a single
alternative `pat`. -/
def occursBounded (pat hay : Str) : Bool := occursBoundedAux pat none hay

/-- A whole alternation pattern `\b(w1|w2|...)\b` matches iff some
alternative matches somewhere. -/
def matchesAnyBounded (ws : List Str) (q : Str) : Bool :=
  ws.any (fun w => occursBounded w q)

/-! ## Conversational classifier (`greeting_patterns`, `_detect_conversation_type`) -/

/-- `self.greeting_patterns` of `NLPProcessor.__init__`: each category has a
single alternation pattern, given here by its list of alternatives. -/
def greeting_patterns : List (Str × List Str) :=
  [ (str "hello",
      [str "hi", str "hello", str "hey", str "good morning",
       str "good afternoon", str "good evening"]),
    (str "goodbye",
      [str "bye", str "goodbye", str "see you", str "thanks",
       str "thank you", str "exit", str "quit"]),
    (str "help",
      [str "help", str "what can you do", str "how does this work",
       str "guide", str "assist"]),
    (str "status",
      [str "status", str "health", str "working", str "available"]) ]

/-- `NLPProcessor._detect_conversation_type`. -/
def detectConversationType (q : Str) : Option Str :=
  (greeting_patterns.find? (fun p => matchesAnyBounded p.2 q)).map (fun p => p.1)

/-! ## Action extraction (`action_patterns`, `_extract_action`) -/

/-- `self.action_patterns`: each action has a list of regex patterns, each
pattern being a word-boundary alternation over the listed words. -/
def action_patterns : List (Str × List (List Str)) :=
  [ (str "get",
      [[str "what", str "show", str "get", str "tell", str "find"],
       [str "is"], [str "are"]]),
    (str "compare",
      [[str "compare", str "versus", str "vs", str "against", str "difference"]]),
    (str "calculate",
      [[str "calculate", str "compute", str "sum", str "total"]]),
    (str "list",
      [[str "list", str "show all", str "display"]]) ]

/-- `NLPProcessor._extract_action`. -/
def extract_action (q : Str) : Str :=
  match action_patterns.find? (fun p => p.2.any (fun ws => matchesAnyBounded ws q)) with
  | some p => p.1
  | none => str "get"

/-! ## Filter extraction (`_extract_filters`) -/

def agencies : List Str :=
  [str "dss", str "ndia", str "ndis", str "saus", str "afis", str "dfsv"]

/-- `NLPProcessor._extract_filters`: the `agency` key is overwritten by each
matching agency in order, so the last match wins; then the optional
`department` key. -/
def extract_filters (q : Str) : List (Str × Str) :=
  (match (agencies.filter (fun a => containsStr q a)).getLast? with
   | some a => [(str "agency", toUpperStr a)]
   | none => []) ++
  (if containsStr q (str "social services") then
     [(str "department", str "Social Services")]
   else [])

/-! ## Fiscal-year extraction (`_extract_fiscal_year`)

Each regex of `advanced_patterns` is embedded as a matcher that, given the
previous character (for `\b`) and the remaining text, returns the matched
text and the rest; `findallP` embeds `re.findall`'s left-to-right
non-overlapping scan. -/

/-- `20\d{2}-\d{2}`. -/
def m_yearDash : Option Char → Str → Option (Str × Str)
  | _, '2' :: '0' :: a :: b :: '-' :: c :: d :: rest =>
    if a.isDigit && b.isDigit && c.isDigit && d.isDigit then
      some (['2', '0', a, b, '-', c, d], rest)
    else none
  | _, _ => none

/-- `20\d{2}/\d{2}`. -/
def m_yearSlash : Option Char → Str → Option (Str × Str)
  | _, '2' :: '0' :: a :: b :: '/' :: c :: d :: rest =>
    if a.isDigit && b.isDigit && c.isDigit && d.isDigit then
      some (['2', '0', a, b, '/', c, d], rest)
    else none
  | _, _ => none

/-- `FY\s*20\d{2}(?:-\d{2})?` with `re.IGNORECASE`; the optional group is
taken greedily when it is present. -/
def m_fy : Option Char → Str → Option (Str × Str)
  | _, f :: y :: rest =>
    if f.toLower == 'f' && y.toLower == 'y' then
      let sp := rest.takeWhile isSpaceChar
      match rest.dropWhile isSpaceChar with
      | '2' :: '0' :: a :: b :: rest2 =>
        if a.isDigit && b.isDigit then
          match rest2 with
          | '-' :: c :: d :: rest3 =>
            if c.isDigit && d.isDigit then
              some (f :: y :: (sp ++ ['2', '0', a, b, '-', c, d]), rest3)
            else some (f :: y :: (sp ++ ['2', '0', a, b]), rest2)
          | _ => some (f :: y :: (sp ++ ['2', '0', a, b]), rest2)
        else none
      | _ => none
    else none
  | _, _ => none

/-- Consume word `w` case-insensitively, returning the rest. -/
def ciEat (w : Str) (s : Str) : Option Str :=
  if w.isPrefixOf (toLowerStr (s.take w.length)) then some (s.drop w.length) else none

/-- `w\s+year\s+20\d{2}(?:-\d{2})?` with `re.IGNORECASE`, used for the
`fiscal year` and `financial year` patterns.  The matched text is recovered
as the consumed segment of the input. -/
def m_phrase (w : Str) : Option Char → Str → Option (Str × Str) :=
  fun _ s =>
  match ciEat w s with
  | none => none
  | some r1 =>
    if (r1.takeWhile isSpaceChar).isEmpty then none else
    match ciEat (str "year") (r1.dropWhile isSpaceChar) with
    | none => none
    | some r2 =>
      if (r2.takeWhile isSpaceChar).isEmpty then none else
      match r2.dropWhile isSpaceChar with
      | '2' :: '0' :: a :: b :: rest2 =>
        if a.isDigit && b.isDigit then
          match rest2 with
          | '-' :: c :: d :: rest3 =>
            if c.isDigit && d.isDigit then
              some (s.take (s.length - rest3.length), rest3)
            else some (s.take (s.length - rest2.length), rest2)
          | _ => some (s.take (s.length - rest2.length), rest2)
        else none
      | _ => none

/-- `\b20\d{2}\b(?!\d)`: the trailing `\b` already forces the next character
to be a non-word character, which subsumes `(?!\d)`. -/
def m_bare : Option Char → Str → Option (Str × Str)
  | prev, '2' :: '0' :: a :: b :: rest =>
    if a.isDigit && b.isDigit
        && (match prev with | none => true | some p => !isWordChar p)
        && (match rest with | [] => true | d :: _ => !isWordChar d) then
      some (['2', '0', a, b], rest)
    else none
  | _, _ => none

/-- Left-to-right non-overlapping scan, as `re.findall`: try the matcher at
each position; on success continue after the match.  Every matcher consumes
at least one character on success, so fuel `length + 1` is never exhausted. -/
def scanPat (m : Option Char → Str → Option (Str × Str)) :
    Nat → Option Char → Str → List Str
  | 0, _, _ => []
  | _ + 1, _, [] => []
  | fuel + 1, prev, c :: cs =>
    match m prev (c :: cs) with
    | some (mt, rest) => mt :: scanPat m fuel (some (mt.getLastD c)) rest
    | none => scanPat m fuel (some c) cs

def findallP (m : Option Char → Str → Option (Str × Str)) (s : Str) : List Str :=
  scanPat m (s.length + 1) none s

/-- The `re.sub` of the source keeping only digits, dash and slash,
followed by `replace('/', '-')`. -/
def cleanYear (m : Str) : Str :=
  (m.filter (fun c => c.isDigit || c == '-' || c == '/')).map
    (fun c => if c == '/' then '-' else c)

def digitsToNat (s : Str) : Nat := s.foldl (fun a c => a * 10 + (c.toNat - 48)) 0

/-- Last two decimal digits of `n`, zero padded: `str(n)[-2:]` for `n ≥ 100`. -/
def twoDigits (n : Nat) : Str := [Char.ofNat (48 + n / 10 % 10), Char.ofNat (48 + n % 10)]

/-- Expand a bare `YYYY` to `YYYY-(YY+1)`, as in the source. -/
def expandYear (y : Str) : Str :=
  if !(y.contains '-') && y.length == 4 then
    y ++ '-' :: twoDigits (digitsToNat y + 1)
  else y

/-- `self.supported_years`. -/
def supported_years : List Str :=
  [str "2023-24", str "2024-25", str "2025-26", str "2026-27", str "2027-28"]

/-- The six `advanced_patterns` in source order. -/
def year_matchers : List (Option Char → Str → Option (Str × Str)) :=
  [m_yearDash, m_yearSlash, m_fy, m_phrase (str "fiscal"),
   m_phrase (str "financial"), m_bare]

/-- `NLPProcessor._extract_fiscal_year`. -/
def extract_fiscal_year (q : Str) : List Str :=
  (((year_matchers.flatMap (fun m => findallP m q)).map
      (fun m => expandYear (cleanYear m))).filter
    (fun y => supported_years.contains y)).dedup


/-! ## Entity extraction (`_build_metric_keywords`, `_extract_entity`)

With the external training artifacts absent, `metric_keywords` is exactly
the built-in `base_terms` table (per-entity `list(set(...))` deduplication
does not change these already-duplicate-free sets, and keyword order is
irrelevant to scoring). -/

/-- `base_terms` of `_build_metric_keywords`, in source (insertion) order. -/
def metric_keywords : List (Str × List Str) :=
  [ (str "revenue",
      [str "revenue", str "income", str "earnings", str "receipts",
       str "own-source revenue", str "sales", str "turnover"]),
    (str "expenses",
      [str "expenses", str "costs", str "expenditure", str "spending",
       str "outgoings"]),
    (str "employee_benefits",
      [str "employee benefits", str "staff benefits", str "personnel costs",
       str "employee benefit"]),
    (str "operating_expenses",
      [str "operating expenses", str "opex", str "operational costs"]),
    (str "assets",
      [str "assets", str "holdings", str "resources", str "total assets",
       str "financial assets", str "non-financial assets"]),
    (str "current_assets",
      [str "current assets", str "short term assets"]),
    (str "liabilities",
      [str "liabilities", str "debts", str "obligations", str "payables",
       str "provisions", str "total liabilities"]),
    (str "equity",
      [str "equity", str "net worth", str "shareholders equity",
       str "net assets", str "contributed equity"]),
    (str "cash_flow",
      [str "cash flow", str "cashflow", str "cash position", str "net cash",
       str "operating activities"]),
    (str "cash_and_cash_equivalents",
      [str "cash and cash equivalents", str "cash & cash equivalents",
       str "cash equivalents", str "cash at the end of", str "cash at end of"]),
    (str "cash",
      [str "cash", str "liquid assets", str "available cash"]),
    (str "property",
      [str "property", str "plant", str "equipment", str "land",
       str "buildings", str "ppe"]),
    (str "net_income",
      [str "net income", str "profit", str "net profit", str "bottom line",
       str "surplus", str "deficit", str "comprehensive income"]),
    (str "investing_activities",
      [str "investing activities", str "investment activities"]),
    (str "financing_activities",
      [str "financing activities", str "financing cash flow"]) ]

/-- Python `len(s.split())`: number of maximal whitespace-free runs. -/
def wordCountAux : Bool → Str → Nat
  | _, [] => 0
  | inWord, c :: cs =>
    if isSpaceChar c then wordCountAux false cs
    else (if inWord then 0 else 1) + wordCountAux true cs

def wordCount (s : Str) : Nat := wordCountAux false s

/-- `max(len(keyword.split()) for keyword in keywords)` (sets are nonempty). -/
def maxKwWords (kws : List Str) : Nat := (kws.map wordCount).foldl Nat.max 0

/-- Stable insertion of `x` in front of the first element whose key is not
larger, reproducing `sorted(..., reverse=True)`'s stable descending order. -/
def insDesc (key : α → Nat) (x : α) : List α → List α
  | [] => [x]
  | y :: ys => if key y ≤ key x then x :: y :: ys else y :: insDesc key x ys

def sortDesc (key : α → Nat) : List α → List α
  | [] => []
  | x :: xs => insDesc key x (sortDesc key xs)

/-- `sorted_entities` of `_extract_entity`: entities in descending order of
their most specific keyword's word count, stable on ties. -/
def sorted_entities : List (Str × List Str) :=
  sortDesc (fun ek => maxKwWords ek.2) metric_keywords

/-- `matches`: how many keywords of the set occur as substrings of the query. -/
def entityMatches (q : Str) (kws : List Str) : Nat :=
  (kws.filter (fun kw => containsStr q kw)).length

/-- `score`: sum of squared word counts over the matched keywords. -/
def entityRaw (q : Str) (kws : List Str) : Nat :=
  ((kws.filter (fun kw => containsStr q kw)).map (fun kw => wordCount kw * wordCount kw)).sum

/-- `match_score = (matches * score) / len(keywords)` as an exact rational.
Theorem statements are phrased with this value. -/
def finalScore (q : Str) (ek : Str × List Str) : ℚ :=
  ((entityMatches q ek.2 * entityRaw q ek.2 : Nat) : ℚ) / (ek.2.length : ℚ)

/-- The score as a numerator/denominator pair of naturals; `finalScore` is
its value. -/
def scorePair (q : Str) (ek : Str × List Str) : Nat × Nat :=
  (entityMatches q ek.2 * entityRaw q ek.2, ek.2.length)

/-- Exact comparison of two nonnegative fractions by cross-multiplication;
this models the source's `match_score > highest_score` comparison (whenever
the comparison is reached its denominators are positive, see
`pairLt_iff_val_lt`). -/
def pairLt (a b : Nat × Nat) : Bool := decide (a.1 * b.2 < b.1 * a.2)

/-- The accumulator loop of `_extract_entity`: `(best_match, highest_score)`,
updated when `matches > 0` and the score strictly beats the current best. -/
def bestAux (q : Str) : List (Str × List Str) → Option Str → Nat × Nat → Option Str × (Nat × Nat)
  | [], o, b => (o, b)
  | ek :: rest, o, b =>
    if 0 < entityMatches q ek.2 ∧ pairLt b (scorePair q ek) = true then
      bestAux q rest (some ek.1) (scorePair q ek)
    else bestAux q rest o b

/-- `best_match` at the end of the loop; the initial best score `0` is the
pair `(0, 1)`. -/
def bestEntity (q : Str) : Option Str :=
  (bestAux q sorted_entities none (0, 1)).1

/-- The fallback ruleset at the end of `_extract_entity`. -/
def fallbackEntity (q : Str) : Str :=
  if [str "total", str "sum", str "amount"].any (fun w => containsStr q w) then
    if [str "spend", str "cost", str "expense"].any (fun w => containsStr q w) then
      str "expenses"
    else if [str "earn", str "income", str "revenue"].any (fun w => containsStr q w) then
      str "revenue"
    else if [str "asset", str "holding"].any (fun w => containsStr q w) then
      str "assets"
    else str "revenue"
  else str "revenue"

/-- `NLPProcessor._extract_entity`. -/
def extract_entity (q : Str) : Str :=
  match bestEntity q with
  | some e => e
  | none => fallbackEntity q


/-! ## Confidence scorer (`get_confidence_score`) -/

def financial_indicators : List Str :=
  [str "revenue", str "expenses", str "assets", str "liabilities",
   str "cash", str "profit", str "budget"]

def formal_terms : List Str :=
  [str "statement", str "report", str "financial", str "fiscal", str "budget"]

/-- `entity in self.metric_keywords` lookup. -/
def lookupKeywords (e : Str) : Option (List Str) :=
  (metric_keywords.find? (fun p => p.1 == e)).map (fun p => p.2)

/-- `NLPProcessor.get_confidence_score`.  The float constants `0.8`, `0.05`,
`0.15`, `0.02`, `0.9` are the exact rationals `4/5`, `1/20`, `3/20`, `1/50`,
`9/10`; only additions, `min`, `max` and the final clamp occur. -/
def get_confidence_score (entity : Str) (years : List Str) (q : Str) : ℚ :=
  let c0 : ℚ := 4/5
  let c1 := c0 + (match lookupKeywords entity with
    | some kws => min (3/20) ((entityMatches (toLowerStr q) kws : ℚ) * (1/20))
    | none => 0)
  let c2 := c1 + ((years.filter (fun y => supported_years.contains y)).length : ℚ) * (1/20)
  let c3 := c2 + (if [str "get", str "show", str "compare"].contains (extract_action q)
    then 1/20 else 0)
  let c4 := c3 + (if financial_indicators.any (fun w => containsStr (toLowerStr q) w)
    then 1/20 else 0)
  let c5 := c4 + (if formal_terms.any (fun w => containsStr (toLowerStr q) w)
    then 1/50 else 0)
  min (max c5 (9/10)) 1

/-! ## QueryIntent and `process_query` -/

/-- The `QueryIntent` dataclass; `filters` is the dict as an association
list in insertion order. -/
structure QueryIntent where
  action : Str
  entity : Str
  years : List Str
  filters : List (Str × Str)
  confidence : ℚ
deriving DecidableEq

/-- `NLPProcessor.process_query`: lower-case and strip, short-circuit on a
conversational match, else run the financial extraction pipeline. -/
def process_query (userQuery : Str) : QueryIntent :=
  let query := strip (toLowerStr userQuery)
  match detectConversationType query with
  | some c =>
    { action := str "conversation", entity := c, years := [],
      filters := [(str "conversation_type", c), (str "original_query", userQuery)],
      confidence := 1 }
  | none =>
    { action := extract_action query, entity := extract_entity query,
      years := extract_fiscal_year query, filters := extract_filters query,
      confidence := get_confidence_score (extract_entity query) (extract_fiscal_year query) query }

/-! ## SQLGenerator

The excel mapper is the external data-store collaborator: it is passed in
as the list of available tables (`get_available_tables`) and a lookup
`getInfo : Str → Option (List Str)` giving each table's column list
(`get_table_info(...)['columns']`, `none` when the table is inaccessible). -/

/-- `SQLGenerator.table_mappings`. -/
def table_mappings : List (Str × Str) :=
  [ (str "revenue", str "income_statement"),
    (str "expenses", str "income_statement"),
    (str "operating_expenses", str "income_statement"),
    (str "net_income", str "income_statement"),
    (str "assets", str "balance_sheet"),
    (str "current_assets", str "balance_sheet"),
    (str "liabilities", str "balance_sheet"),
    (str "equity", str "balance_sheet"),
    (str "cash_flow", str "cashflow_statement") ]

def lookupMapping (e : Str) : Option Str :=
  (table_mappings.find? (fun p => p.1 == e)).map (fun p => p.2)

/-- `SQLGenerator._find_best_table`: direct statement-type pass, then the
fuzzy pass (entity name, or income/balance group words), then the
cash-flow/DFSV special case, then the first table. -/
def find_best_table (entity : Str) (tables : List Str) : Option Str :=
  match (match lookupMapping entity with
         | some ttype =>
             tables.find? (fun t => containsStr (toLowerStr t) (toLowerStr ttype))
         | none => none) with
  | some t => some t
  | none =>
    match tables.find? (fun t =>
        let tl := toLowerStr t
        containsStr tl (toLowerStr entity)
        || (containsStr tl (str "income")
              && [str "revenue", str "expenses", str "net_income"].contains entity)
        || (containsStr tl (str "balance")
              && [str "assets", str "liabilities", str "equity", str "cash",
                  str "cash_and_cash_equivalents"].contains entity)) with
    | some t => some t
    | none =>
      if entity == str "cash_flow" then
        match tables.find? (fun t =>
            containsStr (toLowerStr t) (str "cash")
              && containsStr (toLowerStr t) (str "dfsv")) with
        | some t => some t
        | none =>
          match tables.find? (fun t => containsStr (toLowerStr t) (str "cash")) with
          | some t => some t
          | none => tables.head?
      else tables.head?

/-- Column-name quoting of `_generate_basic_sql` / `_generate_comparison_sql`
(backtick-quote when the name starts with a digit or has a special
character); column names coming from pandas are nonempty, the empty case is
mapped to "no quoting". -/
def needsQuote (col : Str) : Bool :=
  (match col with | [] => false | c0 :: _ => c0.isDigit)
    || ['-', ' ', ':', '.', '$'].any (fun ch => col.contains ch)

def quoteCol (col : Str) : Str :=
  if needsQuote col then str "\x60" ++ col ++ str "\x60" else col

/-- The item-column test shared by both generators. -/
def isItemCol (col : Str) : Bool :=
  [str "item", str "unnamed_0", str "description", str "account"].contains (toLowerStr col)
    || containsStr (toLowerStr col) (str "unnamed")

def itemColumn (cols : List Str) : Option Str := cols.find? isItemCol

/-- `SQLGenerator._find_entity_columns` (its `entity` argument is unused in
the source as well). -/
def find_entity_columns (entity : Str) (cols : List Str) : List Str :=
  cols.filter (fun c =>
    [str "item", str "description", str "account", str "line_item"].contains (toLowerStr c))

/-- The `year_variants` list of `_find_year_columns`. -/
def yearVariants (y : Str) : List Str :=
  [ y.map (fun c => if c == '-' then '_' else c),
    y.filter (fun c => !(c == '-')),
    y.take 4,
    y.drop (y.length - 2),
    str "fy_" ++ y.take 4,
    str "budget_" ++ y.take 4 ]

/-- `SQLGenerator._find_year_columns`: a column is collected once per
requested year whose any variant occurs in its lower-cased name; if nothing
is collected, fall back to columns holding a digit and a financial
indicator word; finally `list(set(...))`, modelled as `dedup`. -/
def find_year_columns (years cols : List Str) : List Str :=
  let pass1 := cols.flatMap (fun col =>
    (years.filter (fun y =>
      (yearVariants y).any (fun v => containsStr (toLowerStr col) v))).map (fun _ => col))
  (if pass1.isEmpty then
    cols.filter (fun col =>
      col.any (fun c => c.isDigit)
        && [str "budget", str "estimate", str "actual", str "dollar", str "000"].any
          (fun k => containsStr (toLowerStr col) k))
  else pass1).dedup

/-- First `20\d{2}` occurrence in a column name, as a number. -/
def yearAt : Str → Option Nat
  | '2' :: '0' :: a :: b :: _ =>
    if a.isDigit && b.isDigit then some (2000 + 10 * (a.toNat - 48) + (b.toNat - 48))
    else none
  | _ => none

def findYearNum : Str → Option Nat
  | [] => none
  | c :: cs => match yearAt (c :: cs) with | some n => some n | none => findYearNum cs

/-- `SQLGenerator._extract_year_from_column` (defaults to 2024). -/
def extract_year_from_column (col : Str) : Nat := (findYearNum col).getD 2024

/-- The fixed pattern table of `_get_entity_patterns`. -/
def entity_patterns_table : List (Str × List Str) :=
  [ (str "revenue", [str "revenue", str "income", str "earnings"]),
    (str "expenses", [str "expenses", str "costs", str "expenditure"]),
    (str "operating_expenses", [str "operating expenses", str "operational costs"]),
    (str "assets", [str "assets", str "total assets"]),
    (str "current_assets", [str "current assets"]),
    (str "liabilities", [str "liabilities", str "total liabilities"]),
    (str "equity", [str "equity", str "net worth"]),
    (str "cash_flow", [str "cash flow", str "net cash"]),
    (str "net_income", [str "net income", str "profit", str "net result"]),
    (str "employee_benefits",
      [str "employee benefits", str "employee benefit", str "staff benefits"]),
    (str "cash_and_cash_equivalents",
      [str "cash and cash equivalents", str "cash equivalents",
       str "cash & cash equivalents"]),
    (str "cash", [str "cash", str "available cash", str "liquid assets"]) ]

def spaceUnderscores (e : Str) : Str := e.map (fun c => if c == '_' then ' ' else c)

/-- `SQLGenerator._get_entity_patterns`: table lookup or the entity with
underscores replaced; entities holding an underscore get the spaced form
appended (in the source a second time when it is already the default). -/
def get_entity_patterns (entity : Str) : List Str :=
  (match (entity_patterns_table.find? (fun p => p.1 == entity)).map (fun p => p.2) with
   | some ps => ps
   | none => [spaceUnderscores entity]) ++
  (if entity.contains '_' then [spaceUnderscores entity] else [])

/-- One `LOWER(item) LIKE` disjunct of the entity filter. -/
def likeCond (qitem p : Str) : Str :=
  str "LOWER(" ++ qitem ++ str ") LIKE \x27%" ++ toLowerStr p ++ str "%\x27"

/-- `', '.join` and friends. -/
def joinSep (sep : Str) : List Str → Str
  | [] => []
  | [x] => x
  | x :: y :: xs => x ++ sep ++ joinSep sep (y :: xs)

/-- Stable ascending sort by `_extract_year_from_column`, as Python's
stable `sorted`. -/
def insAsc (key : Str → Nat) (x : Str) : List Str → List Str
  | [] => [x]
  | y :: ys => if key x < key y then x :: y :: ys else y :: insAsc key x ys

def sortByYear : List Str → List Str
  | [] => []
  | x :: xs => insAsc extract_year_from_column x (sortByYear xs)

/-- `SQLGenerator._generate_basic_sql`. -/
def generate_basic_sql (getInfo : Str → Option (List Str)) (intent : QueryIntent)
    (table : Str) : Str :=
  match getInfo table with
  | none => str "SELECT \x27Table " ++ table ++ str " not accessible\x27 as message"
  | some cols =>
    let entityCols := find_entity_columns intent.entity cols
    let yearCols := find_year_columns intent.years cols
    let item := itemColumn cols
    let selectCols :=
      (match item with
       | some ic => [ic]
       | none => entityCols) ++ sortByYear yearCols
    let selectCols := if selectCols.isEmpty then [str "*"] else selectCols
    let quoted := selectCols.map (fun c => if c == str "*" then c else quoteCol c)
    let whereConds :=
      (match item with
       | some ic =>
         if !(intent.entity == str "unknown") then
           let pats := get_entity_patterns intent.entity
           if pats.isEmpty then []
           else [str "(" ++ joinSep (str " OR ") (pats.map (likeCond (quoteCol ic)))
                  ++ str ")"]
         else []
       | none => []) ++
      intent.filters.filterMap (fun kv =>
        if kv.1 == str "agency" && cols.contains (str "Agency") then
          some (str "UPPER(Agency) = \x27" ++ toUpperStr kv.2 ++ str "\x27")
        else none)
    let tableName := if table.contains '-' || table.contains ' ' then
        str "\x60" ++ table ++ str "\x60"
      else table
    let base := str "SELECT " ++ joinSep (str ", ") quoted ++ str " FROM " ++ tableName
    (if whereConds.isEmpty then base
     else base ++ str " WHERE " ++ joinSep (str " AND ") whereConds) ++ str " LIMIT 10"

/-- The comparison query f-string of `_generate_comparison_sql`, with its
exact whitespace. -/
def comparisonSqlBase (qi q1 q2 table : Str) : Str :=
  str "\n            SELECT " ++ qi ++ str ", \n                   "
    ++ q1 ++ str " as Year_1,\n                   "
    ++ q2 ++ str " as Year_2,\n                   ("
    ++ q2 ++ str " - " ++ q1 ++ str ") as Difference,\n                   ROUND((("
    ++ q2 ++ str " - " ++ q1 ++ str ") * 100.0 / " ++ q1
    ++ str "), 2) as Percentage_Change\n            FROM " ++ table
    ++ str "\n            WHERE " ++ qi ++ str " IS NOT NULL AND "
    ++ q1 ++ str " IS NOT NULL AND " ++ q2 ++ str " IS NOT NULL\n            "

/-- The comparison query with the optional entity filter appended. -/
def comparisonShape (qi q1 q2 table : Str) (pats : List Str) : Str :=
  if pats.isEmpty then comparisonSqlBase qi q1 q2 table
  else comparisonSqlBase qi q1 q2 table ++ str " AND ("
         ++ joinSep (str " OR ") (pats.map (likeCond qi)) ++ str ")"

/-- `SQLGenerator._generate_comparison_sql`: falls back to the basic query
when column info is missing, fewer than two intent years, or fewer than two
resolved year columns; with no item column it emits a capped `SELECT *`. -/
def generate_comparison_sql (getInfo : Str → Option (List Str)) (intent : QueryIntent)
    (table : Str) : Str :=
  match getInfo table with
  | none => generate_basic_sql getInfo intent table
  | some cols =>
    if intent.years.length < 2 then generate_basic_sql getInfo intent table
    else
      match find_year_columns (intent.years.take 2) cols with
      | c1 :: c2 :: _ =>
        (match itemColumn cols with
         | some item =>
           comparisonShape (quoteCol item) (quoteCol c1) (quoteCol c2) table
             (get_entity_patterns intent.entity)
         | none => str "SELECT * FROM " ++ table ++ str " LIMIT 10")
      | _ => generate_basic_sql getInfo intent table

/-- `SQLGenerator.generate_sql`. -/
def generate_sql (tables : List Str) (getInfo : Str → Option (List Str))
    (intent : QueryIntent) : Str × List Str :=
  match tables with
  | [] => (str "SELECT \x27No data available\x27 as message", [])
  | _ =>
    match find_best_table intent.entity tables with
    | none => (str "SELECT \x27Table not found\x27 as message", [])
    | some t =>
      (if intent.action == str "compare" then generate_comparison_sql getInfo intent t
       else generate_basic_sql getInfo intent t, [t])

/-! ## Helper lemmas -/

/-- `List.find?` returns the first element satisfying the predicate. -/
lemma find?_split {α : Type} (p : α → Bool) :
    ∀ (l : List α) (a : α), l.find? p = some a →
      p a = true ∧ ∃ l1 l2, l = l1 ++ a :: l2 ∧ ∀ b ∈ l1, p b = false := by
  intro l
  induction l with
  | nil => intro a h; simp [List.find?] at h
  | cons x xs ih =>
    intro a h
    by_cases hp : p x = true
    · rw [List.find?_cons_of_pos _ hp] at h
      obtain rfl : x = a := by injection h
      exact ⟨hp, [], xs, rfl, by simp⟩
    · rw [List.find?_cons_of_neg _ (by simpa using hp)] at h
      obtain ⟨hpa, l1, l2, heq, hall⟩ := ih a h
      refine ⟨hpa, x :: l1, l2, by rw [heq]; rfl, ?_⟩
      intro b hb
      rcases List.mem_cons.mp hb with rfl | hb
      · simpa using hp
      · exact hall b hb

/-! ## Claims -/

/-- C1: for every entity, year list and query text, `get_confidence_score`
lands in the closed interval `[0.90, 1.0]`: the heuristic sum starts at
0.80, adds its bonuses, is floored by `max(·, 0.90)` and clamped by
`min(·, 1.0)`.  (The score is a Lean function of exactly these three
arguments, so identical inputs give identical scores by reflexivity.) -/
theorem C1_confidence_score_bounds (entity : Str) (years : List Str) (q : Str) :
    (9/10 : ℚ) ≤ get_confidence_score entity years q
      ∧ get_confidence_score entity years q ≤ 1 := by
  unfold get_confidence_score
  exact ⟨le_min (le_max_right _ _) (by norm_num), min_le_right _ _⟩

/-- C2: any query whose lower-cased, stripped text matches a conversational
pattern short-circuits: `process_query` returns action `conversation`,
entity the matched category, no years, confidence exactly 1, and the
category is the first of the fixed order (hello/greeting, goodbye, help,
status) whose pattern matches — no financial extraction output appears. -/
theorem C2_conversational_shortcircuit (q c : Str)
    (h : detectConversationType (strip (toLowerStr q)) = some c) :
    process_query q =
      { action := str "conversation", entity := c, years := [],
        filters := [(str "conversation_type", c), (str "original_query", q)],
        confidence := 1 }
    ∧ ∃ ws l1 l2, greeting_patterns = l1 ++ (c, ws) :: l2
        ∧ matchesAnyBounded ws (strip (toLowerStr q)) = true
        ∧ ∀ p ∈ l1, matchesAnyBounded p.2 (strip (toLowerStr q)) = false := by
  constructor
  · simp only [process_query, h]
  · unfold detectConversationType at h
    obtain ⟨⟨c1, ws⟩, hfind, hfst⟩ := Option.map_eq_some'.mp h
    obtain rfl : c1 = c := hfst
    obtain ⟨hp, l1, l2, heq, hall⟩ := find?_split _ _ _ hfind
    exact ⟨ws, l1, l2, heq, hp, hall⟩

/-- Witness for C2: the query "hello there" is classified as the `hello`
category with the exact short-circuit intent. -/
theorem C2_witness :
    detectConversationType (strip (toLowerStr (str "hello there"))) = some (str "hello")
    ∧ process_query (str "hello there") =
      { action := str "conversation", entity := str "hello", years := [],
        filters := [(str "conversation_type", str "hello"),
                    (str "original_query", str "hello there")],
        confidence := 1 } :=
  ⟨by decide, (C2_conversational_shortcircuit (str "hello there") (str "hello") (by decide)).1⟩

/-- C3: `_extract_fiscal_year` maps "2024" to exactly {2024-25}, "2024/25"
to exactly {2024-25} and "2030-31" to the empty set; every returned year is
in the five-element allowlist, and the returned list is duplicate-free. -/
theorem C3_fiscal_year_extraction :
    extract_fiscal_year (str "2024") = [str "2024-25"]
    ∧ extract_fiscal_year (str "2024/25") = [str "2024-25"]
    ∧ extract_fiscal_year (str "2030-31") = []
    ∧ (∀ q y, y ∈ extract_fiscal_year q → y ∈ supported_years)
    ∧ (∀ q, (extract_fiscal_year q).Nodup) := by
  refine ⟨by decide, by decide, by decide, ?_, fun q => List.nodup_dedup _⟩
  intro q y hy
  unfold extract_fiscal_year at hy
  rw [List.mem_dedup, List.mem_filter] at hy
  exact List.mem_of_elem_eq_true hy.2

/-- Witness for C3's allowlist clause at the query "2024". -/
theorem C3_witness :
    str "2024-25" ∈ extract_fiscal_year (str "2024")
    ∧ str "2024-25" ∈ supported_years :=
  ⟨by decide,
   C3_fiscal_year_extraction.2.2.2.1 (str "2024") (str "2024-25") (by decide)⟩

/-! ## Entity-scoring fold characterization (for C4, C9) -/

/-- Value of a numerator/denominator pair. -/
def pairVal (p : Nat × Nat) : ℚ := (p.1 : ℚ) / (p.2 : ℚ)

lemma finalScore_eq_pairVal (q : Str) (ek : Str × List Str) :
    finalScore q ek = pairVal (scorePair q ek) := rfl

lemma pairLt_iff_val_lt {n d m k : Nat} (hd : 0 < d) (hk : 0 < k) :
    pairLt (n, d) (m, k) = true ↔ (n : ℚ) / (d : ℚ) < (m : ℚ) / (k : ℚ) := by
  have hd' : (0 : ℚ) < (d : ℚ) := by exact_mod_cast hd
  have hk' : (0 : ℚ) < (k : ℚ) := by exact_mod_cast hk
  rw [pairLt, decide_eq_true_eq, div_lt_div_iff₀ hd' hk']
  constructor <;> intro h <;> exact_mod_cast h

lemma matches_pos_len_pos {q : Str} {kws : List Str}
    (h : 0 < entityMatches q kws) : 0 < kws.length :=
  lt_of_lt_of_le h (List.length_filter_le _ _)

lemma finalScore_of_no_match {q : Str} {ek : Str × List Str}
    (h : entityMatches q ek.2 = 0) : finalScore q ek = 0 := by
  unfold finalScore
  rw [h]
  simp

lemma finalScore_nonneg (q : Str) (ek : Str × List Str) : 0 ≤ finalScore q ek := by
  unfold finalScore
  positivity

lemma bestAux_den_pos (q : Str) :
    ∀ (L : List (Str × List Str)) (o : Option Str) (n d : Nat), 0 < d →
      0 < (bestAux q L o (n, d)).2.2 := by
  intro L
  induction L with
  | nil => intro o n d hd; exact hd
  | cons x rest ih =>
    intro o n d hd
    by_cases hc : 0 < entityMatches q x.2 ∧ pairLt (n, d) (scorePair q x) = true
    · rw [bestAux, if_pos hc]
      exact ih _ _ _ (matches_pos_len_pos hc.1)
    · rw [bestAux, if_neg hc]
      exact ih _ _ _ hd

lemma bestAux_val_mono (q : Str) :
    ∀ (L : List (Str × List Str)) (o : Option Str) (n d : Nat), 0 < d →
      (n : ℚ) / (d : ℚ) ≤ pairVal (bestAux q L o (n, d)).2 := by
  intro L
  induction L with
  | nil => intro o n d _; exact le_refl _
  | cons x rest ih =>
    intro o n d hd
    by_cases hc : 0 < entityMatches q x.2 ∧ pairLt (n, d) (scorePair q x) = true
    · rw [bestAux, if_pos hc]
      have hk : 0 < (scorePair q x).2 := matches_pos_len_pos hc.1
      have h1 : (n : ℚ) / (d : ℚ) < pairVal (scorePair q x) :=
        (pairLt_iff_val_lt hd hk).mp hc.2
      exact le_of_lt (lt_of_lt_of_le h1 (ih _ _ _ hk))
    · rw [bestAux, if_neg hc]
      exact ih _ _ _ hd

lemma bestAux_ub (q : Str) :
    ∀ (L : List (Str × List Str)) (o : Option Str) (n d : Nat), 0 < d →
      ∀ ek ∈ L, finalScore q ek ≤ pairVal (bestAux q L o (n, d)).2 := by
  intro L
  induction L with
  | nil => intro o n d _ ek hek; exact absurd hek (List.not_mem_nil ek)
  | cons x rest ih =>
    intro o n d hd ek hek
    by_cases hc : 0 < entityMatches q x.2 ∧ pairLt (n, d) (scorePair q x) = true
    · rw [bestAux, if_pos hc]
      have hk : 0 < (scorePair q x).2 := matches_pos_len_pos hc.1
      rcases List.mem_cons.mp hek with rfl | hek
      · rw [finalScore_eq_pairVal]
        exact bestAux_val_mono q rest _ _ _ hk
      · exact ih _ _ _ hk ek hek
    · rw [bestAux, if_neg hc]
      rcases List.mem_cons.mp hek with rfl | hek
      · rcases Nat.eq_zero_or_pos (entityMatches q ek.2) with hm | hm
        · rw [finalScore_of_no_match hm]
          calc (0 : ℚ) ≤ (n : ℚ) / (d : ℚ) := by positivity
            _ ≤ pairVal (bestAux q rest o (n, d)).2 := bestAux_val_mono q rest _ _ _ hd
        · have hk : 0 < (scorePair q ek).2 := matches_pos_len_pos hm
          have hnlt : ¬ pairLt (n, d) (scorePair q ek) = true := fun hcon => hc ⟨hm, hcon⟩
          have : ¬ ((n : ℚ) / (d : ℚ) < pairVal (scorePair q ek)) := by
            intro hcon
            exact hnlt ((pairLt_iff_val_lt hd hk).mpr hcon)
          rw [finalScore_eq_pairVal]
          exact le_trans (not_lt.mp this) (bestAux_val_mono q rest _ _ _ hd)
      · exact ih _ _ _ hd ek hek

lemma bestAux_main (q : Str) :
    ∀ (L : List (Str × List Str)) (o : Option Str) (n d : Nat), 0 < d →
      ∀ e, (bestAux q L o (n, d)).1 = some e →
        (bestAux q L o (n, d)) = (o, (n, d)) ∧ o = some e
        ∨ ∃ l1 kws l2, L = l1 ++ (e, kws) :: l2
            ∧ 0 < entityMatches q kws
            ∧ (bestAux q L o (n, d)).2 = scorePair q (e, kws)
            ∧ (n : ℚ) / (d : ℚ) < finalScore q (e, kws)
            ∧ ∀ ek ∈ l1, finalScore q ek < finalScore q (e, kws) := by
  intro L
  induction L with
  | nil => intro o n d _ e h; exact Or.inl ⟨rfl, h⟩
  | cons x rest ih =>
    intro o n d hd e h
    obtain ⟨x1, x2⟩ := x
    by_cases hc : 0 < entityMatches q (x1, x2).2 ∧ pairLt (n, d) (scorePair q (x1, x2)) = true
    · rw [bestAux, if_pos hc] at h ⊢
      have hk : 0 < (scorePair q (x1, x2)).2 := matches_pos_len_pos hc.1
      rcases ih (some x1) _ _ hk e h with ⟨hres, hoe⟩ | ⟨l1, kws, l2, heq, hm, hres2, hlt, hall⟩
      · obtain rfl : x1 = e := by injection hoe
        refine Or.inr ⟨[], x2, rest, rfl, hc.1, ?_, ?_, by simp⟩
        · exact congrArg Prod.snd hres
        · exact (pairLt_iff_val_lt hd hk).mp hc.2
      · refine Or.inr ⟨(x1, x2) :: l1, kws, l2, by rw [heq, List.cons_append], hm, hres2, ?_, ?_⟩
        · exact lt_trans ((pairLt_iff_val_lt hd hk).mp hc.2)
            (by rw [finalScore_eq_pairVal] at hlt ⊢; exact hlt)
        · intro ek hek
          rcases List.mem_cons.mp hek with rfl | hek
          · rw [finalScore_eq_pairVal]
            exact hlt
          · exact hall ek hek
    · rw [bestAux, if_neg hc] at h ⊢
      rcases ih o _ _ hd e h with ⟨hres, hoe⟩ | ⟨l1, kws, l2, heq, hm, hres2, hlt, hall⟩
      · exact Or.inl ⟨hres, hoe⟩
      · refine Or.inr ⟨(x1, x2) :: l1, kws, l2, by rw [heq, List.cons_append], hm, hres2, hlt, ?_⟩
        intro ek hek
        rcases List.mem_cons.mp hek with heq2 | hek
        · have hc' : ¬ (0 < entityMatches q ek.2 ∧ pairLt (n, d) (scorePair q ek) = true) := by
            rw [heq2]; exact hc
          rcases Nat.eq_zero_or_pos (entityMatches q ek.2) with hm0 | hm0
          · rw [finalScore_of_no_match hm0]
            calc (0 : ℚ) ≤ (n : ℚ) / (d : ℚ) := by positivity
              _ < finalScore q (e, kws) := hlt
          · have hk : 0 < (scorePair q ek).2 := matches_pos_len_pos hm0
            have hnlt : ¬ pairLt (n, d) (scorePair q ek) = true := fun hcon => hc' ⟨hm0, hcon⟩
            have hle : ¬ ((n : ℚ) / (d : ℚ) < pairVal (scorePair q ek)) := by
              intro hcon
              exact hnlt ((pairLt_iff_val_lt hd hk).mpr hcon)
            rw [finalScore_eq_pairVal]
            exact lt_of_le_of_lt (not_lt.mp hle) hlt
        · exact hall ek hek


lemma insDesc_perm {α : Type} (key : α → Nat) (x : α) :
    ∀ l : List α, (insDesc key x l).Perm (x :: l) := by
  intro l
  induction l with
  | nil => exact List.Perm.refl _
  | cons y ys ih =>
    unfold insDesc
    by_cases h : key y ≤ key x
    · rw [if_pos h]
    · rw [if_neg h]
      exact (ih.cons y).trans (List.Perm.swap x y ys)

lemma sortDesc_perm {α : Type} (key : α → Nat) :
    ∀ l : List α, (sortDesc key l).Perm l := by
  intro l
  induction l with
  | nil => exact List.Perm.refl _
  | cons x xs ih =>
    exact (insDesc_perm key x (sortDesc key xs)).trans (ih.cons x)

lemma fallbackEntity_mem (q : Str) :
    fallbackEntity q ∈ [str "expenses", str "revenue", str "assets"] := by
  unfold fallbackEntity
  repeat' split
  all_goals decide

/-- C4: when the scoring loop elects an entity, that entity is the first in
the fixed evaluation order (descending by most-specific keyword word count,
stable) whose `finalScore = matches * rawScore / |K|` is positive and
strictly greatest: every earlier entity scores strictly below it and every
entity scores at most it (equal scores keep the first, and the winner is a
function of the query alone, hence deterministic). -/
theorem C4_entity_scoring (q e : Str) (h : bestEntity q = some e) :
    ∃ l1 kws l2,
      sorted_entities = l1 ++ (e, kws) :: l2
      ∧ 0 < entityMatches q kws
      ∧ finalScore q (e, kws)
          = ((entityMatches q kws * entityRaw q kws : Nat) : ℚ) / (kws.length : ℚ)
      ∧ 0 < finalScore q (e, kws)
      ∧ (∀ ek ∈ l1, finalScore q ek < finalScore q (e, kws))
      ∧ (∀ ek ∈ sorted_entities, finalScore q ek ≤ finalScore q (e, kws))
      ∧ List.Pairwise (fun a b : Nat => b ≤ a)
          (sorted_entities.map (fun ek => maxKwWords ek.2)) := by
  rcases bestAux_main q sorted_entities none 0 1 one_pos e h with
    ⟨_, hoe⟩ | ⟨l1, kws, l2, heq, hm, hres, hlt, hall⟩
  · exact absurd hoe (by simp)
  · refine ⟨l1, kws, l2, heq, hm, rfl, ?_, hall, ?_, by decide⟩
    · have h0 : ((0 : Nat) : ℚ) / ((1 : Nat) : ℚ) < finalScore q (e, kws) := hlt
      simpa using h0
    · intro ek hek
      have hub := bestAux_ub q sorted_entities none 0 1 one_pos ek hek
      rw [hres, ← finalScore_eq_pairVal] at hub
      exact hub

/-- Witness for C4 at the query "show me the revenue", which elects the
`revenue` entity. -/
theorem C4_witness :
    bestEntity (str "show me the revenue") = some (str "revenue")
    ∧ ∃ l1 kws l2,
        sorted_entities = l1 ++ (str "revenue", kws) :: l2
        ∧ 0 < entityMatches (str "show me the revenue") kws := by
  refine ⟨by decide, ?_⟩
  obtain ⟨l1, kws, l2, heq, hm, _⟩ :=
    C4_entity_scoring (str "show me the revenue") (str "revenue") (by decide)
  exact ⟨l1, kws, l2, heq, hm⟩

/-- C9: entity extraction is total and never returns an empty entity: the
result is always one of the knowledge-base entity keys, and whenever no
entity scores positively the result is a fallback bucket among expenses,
revenue and assets (with `revenue` the fixed default). -/
theorem C9_entity_extraction_total (q : Str) :
    extract_entity q ≠ []
    ∧ extract_entity q ∈ metric_keywords.map (fun ek => ek.1)
    ∧ (bestEntity q = none →
        extract_entity q ∈ [str "expenses", str "revenue", str "assets"]) := by
  have hmem : extract_entity q ∈ metric_keywords.map (fun ek => ek.1) := by
    unfold extract_entity
    cases hbe : bestEntity q with
    | none =>
      have hsub : ∀ x ∈ [str "expenses", str "revenue", str "assets"],
          x ∈ metric_keywords.map (fun ek => ek.1) := by decide
      exact hsub _ (fallbackEntity_mem q)
    | some e =>
      rcases bestAux_main q sorted_entities none 0 1 one_pos e hbe with
        ⟨_, hoe⟩ | ⟨l1, kws, l2, heq, _, _, _, _⟩
      · exact absurd hoe (by simp)
      · have hin : (e, kws) ∈ sorted_entities :=
          heq ▸ List.mem_append.mpr (Or.inr (List.mem_cons_self _ _))
        have hperm := sortDesc_perm (fun ek : Str × List Str => maxKwWords ek.2) metric_keywords
        exact List.mem_map_of_mem _ (hperm.subset hin)
  refine ⟨?_, hmem, ?_⟩
  · have hne : ∀ k ∈ metric_keywords.map (fun ek => ek.1), k ≠ [] := by decide
    exact hne _ hmem
  · intro hbe
    simp only [extract_entity, hbe]
    exact fallbackEntity_mem q

/-- Witness for C9's fallback clause at the query "qqq", where nothing
scores. -/
theorem C9_witness :
    bestEntity (str "qqq") = none
    ∧ extract_entity (str "qqq") ∈ [str "expenses", str "revenue", str "assets"] :=
  ⟨by decide, (C9_entity_extraction_total (str "qqq")).2.2 (by decide)⟩

/-- C8: an empty schema catalog makes `generate_sql` return the
"No data available" message result (reported, not raised — the embedding is
a total function); and on a nonempty catalog table resolution always
succeeds, so the "Table not found" branch of `generate_sql` (which would
report that message) is its defensive dead arm. -/
theorem C8_failure_modes (intent : QueryIntent) (getInfo : Str → Option (List Str)) :
    generate_sql [] getInfo intent
      = (str "SELECT \x27No data available\x27 as message", [])
    ∧ ∀ tables : List Str, tables ≠ [] →
        (find_best_table intent.entity tables).isSome = true := by
  refine ⟨rfl, ?_⟩
  intro tables hne
  rcases tables with _ | ⟨t0, ts⟩
  · exact absurd rfl hne
  · unfold find_best_table
    repeat' split
    all_goals rfl

/-- Witness for C8 on a concrete singleton catalog. -/
theorem C8_witness :
    generate_sql [] (fun _ => none)
        { action := str "get", entity := str "anything", years := [],
          filters := [], confidence := 1 }
      = (str "SELECT \x27No data available\x27 as message", [])
    ∧ (find_best_table (str "anything") [str "tbl"]).isSome = true :=
  ⟨(C8_failure_modes
      { action := str "get", entity := str "anything", years := [],
        filters := [], confidence := 1 } (fun _ => none)).1,
   (C8_failure_modes
      { action := str "get", entity := str "anything", years := [],
        filters := [], confidence := 1 } (fun _ => none)).2
     [str "tbl"] (by decide)⟩

/-- C5 counterexample: with catalog `[abc_cash_flow, xyz_cash_dfsv]` and
entity `cash_flow`, the claim's rule — the table carrying the `dfsv` marker
is preferred over any other cash-flow-like table (no table name holds the
statement-type token `cashflow_statement`) — picks `xyz_cash_dfsv`, but the
source's fuzzy entity-token pass runs first and returns `abc_cash_flow`. -/
theorem C5_counterexample :
    find_best_table (str "cash_flow") [str "abc_cash_flow", str "xyz_cash_dfsv"]
      = some (str "abc_cash_flow")
    ∧ str "abc_cash_flow" ≠ str "xyz_cash_dfsv"
    ∧ containsStr (toLowerStr (str "xyz_cash_dfsv")) (str "cash") = true
    ∧ containsStr (toLowerStr (str "xyz_cash_dfsv")) (str "dfsv") = true
    ∧ containsStr (toLowerStr (str "abc_cash_flow")) (str "cash") = true
    ∧ containsStr (toLowerStr (str "abc_cash_flow")) (str "dfsv") = false
    ∧ (∀ t ∈ [str "abc_cash_flow", str "xyz_cash_dfsv"],
        containsStr (toLowerStr t) (str "cashflow_statement") = false) := by
  decide

/-- C5 (amended): the statement-type pass (token `cashflow_statement`) and
the fuzzy entity-token pass (`cash_flow`) take precedence; only when both
find nothing does the marker preference apply — a table containing `cash`
and `dfsv` is picked first, else the first table containing `cash`, else
the first catalog table. -/
theorem C5_amended_table_selection (tables : List Str)
    (h1 : ∀ t ∈ tables, containsStr (toLowerStr t) (str "cashflow_statement") = false)
    (h2 : ∀ t ∈ tables, containsStr (toLowerStr t) (str "cash_flow") = false) :
    find_best_table (str "cash_flow") tables =
      match tables.find? (fun t => containsStr (toLowerStr t) (str "cash")
          && containsStr (toLowerStr t) (str "dfsv")) with
      | some t => some t
      | none =>
        match tables.find? (fun t => containsStr (toLowerStr t) (str "cash")) with
        | some t => some t
        | none => tables.head? := by
  have hlow1 : toLowerStr (str "cashflow_statement") = str "cashflow_statement" := by decide
  have hlow2 : toLowerStr (str "cash_flow") = str "cash_flow" := by decide
  unfold find_best_table
  rw [show lookupMapping (str "cash_flow") = some (str "cashflow_statement") from rfl]
  split
  · rename_i t ht
    exact absurd ((by simpa [hlow1] using (find?_split _ _ _ ht).1 :
      containsStr (toLowerStr t) (str "cashflow_statement") = true))
      (by simp [h1 t (List.mem_of_find?_eq_some ht)])
  · split
    · rename_i t ht
      have hp := (find?_split _ _ _ ht).1
      have hmem := List.mem_of_find?_eq_some ht
      simp only [hlow2, Bool.or_eq_true, Bool.and_eq_true] at hp
      rcases hp with (hp | ⟨_, hp⟩) | ⟨_, hp⟩
      · exact absurd hp (by simp [h2 t hmem])
      · exact absurd hp (by decide)
      · exact absurd hp (by decide)
    · rw [if_pos (by decide : (str "cash_flow" == str "cash_flow") = true)]

/-- Witness for the amended C5 on a catalog where both early passes fail
and the marker table wins. -/
theorem C5_witness :
    (∀ t ∈ [str "foo", str "bar_cash_dfsv"],
        containsStr (toLowerStr t) (str "cashflow_statement") = false)
    ∧ (∀ t ∈ [str "foo", str "bar_cash_dfsv"],
        containsStr (toLowerStr t) (str "cash_flow") = false)
    ∧ find_best_table (str "cash_flow") [str "foo", str "bar_cash_dfsv"]
        = some (str "bar_cash_dfsv") := by
  refine ⟨by decide, by decide, ?_⟩
  rw [C5_amended_table_selection _ (by decide) (by decide)]
  decide

/-! ## SQL string helpers for the row-cap and comparison-shape claims -/

/-- Modelled from the claim's words (C6): the comparison query shape — the
item column, the two year columns aliased `Year_1`/`Year_2`, a `Difference`
column `p2 − p1`, a `Percentage_Change` column `ROUND((p2−p1)*100.0/p1, 2)`
and a null-guard on the item and both year columns — with an arbitrary
trailing filter `tail`. -/
def claimComparisonShape (qitem q1 q2 table tail : Str) : Str :=
  str "\n            " ++ (str "SELECT " ++ qitem ++ str ", ")
  ++ str "\n                   " ++ (q1 ++ str " as Year_1")
  ++ str ",\n                   " ++ (q2 ++ str " as Year_2")
  ++ str ",\n                   "
  ++ (str "(" ++ q2 ++ str " - " ++ q1 ++ str ") as Difference")
  ++ str ",\n                   "
  ++ (str "ROUND(((" ++ q2 ++ str " - " ++ q1 ++ str ") * 100.0 / " ++ q1
        ++ str "), 2) as Percentage_Change")
  ++ str "\n            FROM " ++ table ++ str "\n            "
  ++ (str "WHERE " ++ qitem ++ str " IS NOT NULL AND " ++ q1
        ++ str " IS NOT NULL AND " ++ q2 ++ str " IS NOT NULL")
  ++ str "\n            " ++ tail

/-- The source's comparison f-string regrouped into the claim's units. -/
lemma comparisonSqlBase_decomp (qi q1 q2 table tail : Str) :
    comparisonSqlBase qi q1 q2 table ++ tail = claimComparisonShape qi q1 q2 table tail := by
  unfold comparisonSqlBase claimComparisonShape
  simp only [List.append_assoc]
  rfl

lemma generate_basic_sql_capped (getInfo : Str → Option (List Str)) (intent : QueryIntent)
    (table : Str) (cols : List Str) (h : getInfo table = some cols) :
    ∃ s, generate_basic_sql getInfo intent table = s ++ str " LIMIT 10" := by
  simp only [generate_basic_sql, h]
  exact ⟨_, rfl⟩

lemma no_cap_of_getLast (out : Str) (c : Char) (h : out.getLast? = some c)
    (hc : c ≠ '0') : ¬ ∃ s, out = s ++ str " LIMIT 10" := by
  rintro ⟨s, rfl⟩
  rw [List.getLast?_append_of_ne_nil s (by decide : str " LIMIT 10" ≠ [])] at h
  rw [show (str " LIMIT 10").getLast? = some '0' from by decide] at h
  injection h with h'
  exact hc h'.symm

lemma comparisonShape_getLast (qi q1 q2 table : Str) (pats : List Str) :
    ∃ c, (comparisonShape qi q1 q2 table pats).getLast? = some c ∧ c ≠ '0' := by
  unfold comparisonShape
  split
  · refine ⟨' ', ?_, by decide⟩
    unfold comparisonSqlBase
    rw [List.getLast?_append_of_ne_nil _
      (by decide : str " IS NOT NULL\n            " ≠ [])]
    decide
  · refine ⟨')', ?_, by decide⟩
    rw [List.getLast?_append_of_ne_nil _ (by decide : str ")" ≠ [])]
    decide

/-- When column info is present, the intent has two years, two year columns
resolve and an item column exists, the comparison generator emits exactly
the comparison shape. -/
lemma generate_comparison_sql_shape (getInfo : Str → Option (List Str))
    (intent : QueryIntent) (table : Str) (cols : List Str) (c1 c2 : Str)
    (rest : List Str) (item : Str)
    (h : getInfo table = some cols) (h2 : 2 ≤ intent.years.length)
    (h3 : find_year_columns (intent.years.take 2) cols = c1 :: c2 :: rest)
    (h4 : itemColumn cols = some item) :
    generate_comparison_sql getInfo intent table =
      comparisonShape (quoteCol item) (quoteCol c1) (quoteCol c2) table
        (get_entity_patterns intent.entity) := by
  simp only [generate_comparison_sql, h]
  rw [if_neg (not_lt.mpr h2)]
  simp only [h3, h4]

/-- C6 counterexample: action = compare and two year columns resolve, but
the table has no item column; the emitted query is a capped `SELECT *`
holding no Difference column, refuting the claim as stated. -/
theorem C6_counterexample :
    (generate_sql [str "t6"]
        (fun _ => some [str "2024_25_x_budget", str "2025_26_x_budget"])
        { action := str "compare", entity := str "revenue",
          years := [str "2024-25", str "2025-26"], filters := [], confidence := 1 }).1
      = str "SELECT * FROM t6 LIMIT 10"
    ∧ 2 ≤ (find_year_columns [str "2024-25", str "2025-26"]
            [str "2024_25_x_budget", str "2025_26_x_budget"]).length
    ∧ itemColumn [str "2024_25_x_budget", str "2025_26_x_budget"] = none
    ∧ containsStr (str "SELECT * FROM t6 LIMIT 10") (str "Difference") = false := by
  decide

/-- C6 (amended): when additionally an item column is found, the synthesized
comparison query is exactly the claimed shape — item column selected, the
first two year columns aliased, `Difference = p2 − p1`, `Percentage_Change =
ROUND((p2−p1)*100.0/p1, 2)`, and the null-guard — followed by the entity
filter tail; with no item column a capped `SELECT *` is emitted instead
(see the counterexample). -/
theorem C6_comparison_query (getInfo : Str → Option (List Str)) (intent : QueryIntent)
    (table : Str) (cols : List Str) (c1 c2 : Str) (rest : List Str) (item : Str)
    (h : getInfo table = some cols) (h2 : 2 ≤ intent.years.length)
    (h3 : find_year_columns (intent.years.take 2) cols = c1 :: c2 :: rest)
    (h4 : itemColumn cols = some item) :
    ∃ tail, generate_comparison_sql getInfo intent table =
      claimComparisonShape (quoteCol item) (quoteCol c1) (quoteCol c2) table tail := by
  rw [generate_comparison_sql_shape getInfo intent table cols c1 c2 rest item h h2 h3 h4]
  unfold comparisonShape
  split
  · exact ⟨[], by rw [← comparisonSqlBase_decomp]; simp⟩
  · refine ⟨str " AND (" ++ joinSep (str " OR ")
      ((get_entity_patterns intent.entity).map (likeCond (quoteCol item))) ++ str ")", ?_⟩
    rw [← comparisonSqlBase_decomp]
    simp [List.append_assoc]

/-- Witness for the amended C6 on a three-column table with an item column. -/
theorem C6_witness :
    find_year_columns [str "2024-25", str "2025-26"]
        [str "Item", str "2024_25_Budget", str "2025_26_Budget"]
      = [str "2024_25_Budget", str "2025_26_Budget"]
    ∧ itemColumn [str "Item", str "2024_25_Budget", str "2025_26_Budget"] = some (str "Item")
    ∧ ∃ tail,
      generate_comparison_sql
          (fun _ => some [str "Item", str "2024_25_Budget", str "2025_26_Budget"])
          { action := str "compare", entity := str "revenue",
            years := [str "2024-25", str "2025-26"], filters := [], confidence := 1 }
          (str "t")
        = claimComparisonShape (quoteCol (str "Item")) (quoteCol (str "2024_25_Budget"))
            (quoteCol (str "2025_26_Budget")) (str "t") tail :=
  ⟨by decide, by decide,
   C6_comparison_query
     (fun _ => some [str "Item", str "2024_25_Budget", str "2025_26_Budget"])
     { action := str "compare", entity := str "revenue",
       years := [str "2024-25", str "2025-26"], filters := [], confidence := 1 }
     (str "t") [str "Item", str "2024_25_Budget", str "2025_26_Budget"]
     (str "2024_25_Budget") (str "2025_26_Budget") [] (str "Item")
     rfl (by decide) (by decide) (by decide)⟩

/-- C7 counterexample: a comparison-mode synthesis (action = compare, two
year columns resolved) whose table has no item column produces a query that
ends with the `LIMIT 10` row cap, refuting "every comparison-mode
synthesized query carries no row cap". -/
theorem C7_counterexample :
    (generate_sql [str "t7"]
        (fun _ => some [str "2024_25_x_budget", str "2025_26_x_budget"])
        { action := str "compare", entity := str "revenue",
          years := [str "2024-25", str "2025-26"], filters := [], confidence := 1 }).1
      = str "SELECT * FROM t7" ++ str " LIMIT 10"
    ∧ 2 ≤ (find_year_columns [str "2024-25", str "2025-26"]
            [str "2024_25_x_budget", str "2025_26_x_budget"]).length := by
  decide

/-- C7 (amended): with column info available the basic (non-comparison)
query always ends with the `LIMIT 10` cap, and a comparison query that
reaches the comparison shape (two year columns and an item column) carries
no such cap; the comparison branch's no-item `SELECT *` fallback and its
degraded basic fallbacks remain capped. -/
theorem C7_amended_row_caps (getInfo : Str → Option (List Str)) (intent : QueryIntent)
    (table : Str) (cols : List Str) (h : getInfo table = some cols) :
    (∃ s, generate_basic_sql getInfo intent table = s ++ str " LIMIT 10")
    ∧ ∀ c1 c2 rest item, 2 ≤ intent.years.length →
        find_year_columns (intent.years.take 2) cols = c1 :: c2 :: rest →
        itemColumn cols = some item →
        ¬ ∃ s, generate_comparison_sql getInfo intent table = s ++ str " LIMIT 10" := by
  refine ⟨generate_basic_sql_capped getInfo intent table cols h, ?_⟩
  intro c1 c2 rest item h2 h3 h4
  rw [generate_comparison_sql_shape getInfo intent table cols c1 c2 rest item h h2 h3 h4]
  obtain ⟨c, hc, hc0⟩ := comparisonShape_getLast (quoteCol item) (quoteCol c1)
    (quoteCol c2) table (get_entity_patterns intent.entity)
  exact no_cap_of_getLast _ c hc hc0

/-- Witness for the amended C7: a capped basic query and an uncapped
comparison query at concrete inputs. -/
theorem C7_witness :
    (∃ s, generate_basic_sql (fun _ => some [str "Item", str "2024_25_Budget"])
        { action := str "get", entity := str "revenue", years := [str "2024-25"],
          filters := [], confidence := 1 } (str "t")
      = s ++ str " LIMIT 10")
    ∧ ¬ ∃ s, generate_comparison_sql
        (fun _ => some [str "Item", str "2024_25_Budget", str "2025_26_Budget"])
        { action := str "compare", entity := str "revenue",
          years := [str "2024-25", str "2025-26"], filters := [], confidence := 1 }
        (str "t")
      = s ++ str " LIMIT 10" :=
  ⟨(C7_amended_row_caps (fun _ => some [str "Item", str "2024_25_Budget"])
      { action := str "get", entity := str "revenue", years := [str "2024-25"],
        filters := [], confidence := 1 } (str "t") [str "Item", str "2024_25_Budget"]
      rfl).1,
   (C7_amended_row_caps
      (fun _ => some [str "Item", str "2024_25_Budget", str "2025_26_Budget"])
      { action := str "compare", entity := str "revenue",
        years := [str "2024-25", str "2025-26"], filters := [], confidence := 1 }
      (str "t") [str "Item", str "2024_25_Budget", str "2025_26_Budget"] rfl).2
     (str "2024_25_Budget") (str "2025_26_Budget") [] (str "Item")
     (by decide) (by decide) (by decide)⟩

/-- C10 counterexample: with the table's column info unavailable, the
comparison generator degrades to the basic path — but the result is the
uncapped "not accessible" message, not a 10-row-capped basic query,
refuting the claim's "(including its 10-row cap)". -/
theorem C10_counterexample :
    generate_comparison_sql (fun _ => none)
        { action := str "compare", entity := str "revenue",
          years := [str "2024-25", str "2025-26"], filters := [], confidence := 1 }
        (str "t10")
      = str "SELECT \x27Table t10 not accessible\x27 as message"
    ∧ generate_comparison_sql (fun _ => none)
        { action := str "compare", entity := str "revenue",
          years := [str "2024-25", str "2025-26"], filters := [], confidence := 1 }
        (str "t10")
      = generate_basic_sql (fun _ => none)
        { action := str "compare", entity := str "revenue",
          years := [str "2024-25", str "2025-26"], filters := [], confidence := 1 }
        (str "t10")
    ∧ ¬ ∃ s, str "SELECT \x27Table t10 not accessible\x27 as message"
        = s ++ str " LIMIT 10" :=
  ⟨by decide, by decide,
   no_cap_of_getLast (str "SELECT \x27Table t10 not accessible\x27 as message") 'e'
     (by decide) (by decide)⟩

/-- C10 (amended): under action = compare, synthesis silently hands back
the comparison generator's result, and that generator degrades to the basic
path whenever column info is missing, the intent has fewer than two years,
or fewer than two year columns resolve; the degraded result carries the
basic 10-row cap exactly when column info is available (otherwise it is the
uncapped inaccessible-table message, see the counterexample). -/
theorem C10_degradation (getInfo : Str → Option (List Str)) (intent : QueryIntent)
    (table : Str) (hact : intent.action = str "compare") :
    (∀ tables tbl, find_best_table intent.entity tables = some tbl → tables ≠ [] →
        generate_sql tables getInfo intent
          = (generate_comparison_sql getInfo intent tbl, [tbl]))
    ∧ (getInfo table = none →
        generate_comparison_sql getInfo intent table
          = generate_basic_sql getInfo intent table)
    ∧ (intent.years.length < 2 →
        generate_comparison_sql getInfo intent table
          = generate_basic_sql getInfo intent table)
    ∧ (∀ cols, getInfo table = some cols →
        (find_year_columns (intent.years.take 2) cols).length < 2 →
        generate_comparison_sql getInfo intent table
          = generate_basic_sql getInfo intent table)
    ∧ (∀ cols, getInfo table = some cols →
        ∃ s, generate_basic_sql getInfo intent table = s ++ str " LIMIT 10") := by
  refine ⟨?_, ?_, ?_, ?_, ?_⟩
  · intro tables tbl hfind hne
    rcases tables with _ | ⟨t0, ts⟩
    · exact absurd rfl hne
    · simp only [generate_sql, hfind]
      rw [if_pos (show (intent.action == str "compare") = true by rw [hact]; rfl)]
  · intro h0
    simp only [generate_comparison_sql, h0]
  · intro hlt
    cases hgi : getInfo table with
    | none => simp only [generate_comparison_sql, hgi]
    | some cols =>
      simp only [generate_comparison_sql, hgi]
      rw [if_pos hlt]
  · intro cols hsome hlen
    by_cases hy : intent.years.length < 2
    · simp only [generate_comparison_sql, hsome]
      rw [if_pos hy]
    · simp only [generate_comparison_sql, hsome]
      rw [if_neg hy]
      cases hfy : find_year_columns (intent.years.take 2) cols with
      | nil => rfl
      | cons a tl =>
        cases tl with
        | nil => rfl
        | cons b l =>
          rw [hfy] at hlen
          exact absurd hlen (by simp)
  · intro cols hsome
    exact generate_basic_sql_capped getInfo intent table cols hsome

/-- Witness for the amended C10: a compare intent with a single year
degrades to the capped basic query. -/
theorem C10_witness :
    (([str "2024-25"] : List Str).length < 2)
    ∧ generate_comparison_sql (fun _ => some [str "Item"])
        { action := str "compare", entity := str "revenue",
          years := [str "2024-25"], filters := [], confidence := 1 } (str "t")
      = generate_basic_sql (fun _ => some [str "Item"])
        { action := str "compare", entity := str "revenue",
          years := [str "2024-25"], filters := [], confidence := 1 } (str "t") :=
  ⟨by decide,
   (C10_degradation (fun _ => some [str "Item"])
      { action := str "compare", entity := str "revenue",
        years := [str "2024-25"], filters := [], confidence := 1 }
      (str "t") rfl).2.2.1 (by decide)⟩

end FinAssist
